import Mathlib

/-
  Verification development for the weaviate-agent repository.

  The definitions below are a shallow embedding of the query-routing and
  retrieval pipeline: the DelegatingAgent (cleaned version) in
  src/agents/delegatingAgent.js, the RAGAgent cleaned copy bundled in the
  same file, and the ChartTool in the chart tool module.  External
  capabilities (LLM calls, the Weaviate store, Date parsing) are modelled as
  oracle functions collected in an Env structure; every other step is
  translated directly from the JavaScript source.

  JavaScript conventions used throughout the embedding:
  - string fields model undefined/null as the empty string, which is falsy
    in JS exactly like undefined, so truthiness tests translate to tests
    against the empty string;
  - numeric optional fields are Option Rat, where a present 0 is falsy in
    JS, so truthiness tests exclude some 0;
  - thrown errors are modelled by outcome constructors carrying the message
    string that the catch blocks inspect.
-/

namespace WeaviateAgent

/-- Does the pattern (first argument) start the list (second argument)?
    Used to model JS substring search. -/
def charsLead : List Char → List Char → Bool
  | [], _ => true
  | _ :: _, [] => false
  | p :: ps, c :: cs => p == c && charsLead ps cs

/-- Does the pattern occur anywhere in the list?  Models JS
    String.prototype.includes and the regex alternation of literal words. -/
def charsHave (pat : List Char) : List Char → Bool
  | [] => charsLead pat []
  | c :: cs => charsLead pat (c :: cs) || charsHave pat cs

/-- JS s.includes(sub). -/
def strIncludes (s sub : String) : Bool := charsHave sub.data s.data

/-- JS s.toLowerCase(), as a per-character map over the code points. -/
def jsToLower (s : String) : String := ⟨s.data.map Char.toLower⟩

/-- JS s.substring(0, n). -/
def jsTake (s : String) (n : Nat) : String := ⟨s.data.take n⟩

/-- Drop leading and trailing whitespace from a character list. -/
def trimChars (l : List Char) : List Char :=
  ((l.dropWhile Char.isWhitespace).reverse.dropWhile Char.isWhitespace).reverse

/-- JS s.trim(). -/
def jsTrim (s : String) : String := ⟨trimChars s.data⟩

/-- Worker for splitting on runs of whitespace.  The flag records whether the
    previous character was whitespace, so that a run of whitespace produces a
    single separator, matching the JS regex split used by extractKeywords. -/
def splitWsAux : Bool → List Char → List (List Char) → List Char → List (List Char)
  | _, cur, out, [] => cur.reverse :: out
  | lastWs, cur, out, c :: cs =>
    if c.isWhitespace then
      if lastWs then splitWsAux true cur out cs
      else splitWsAux true [] (cur.reverse :: out) cs
    else splitWsAux false (c :: cur) out cs

/-- JS s.split on a whitespace-run regex. -/
def splitOnWs (s : String) : List String :=
  ((splitWsAux false [] [] s.data).reverse).map (fun cs => ⟨cs⟩)

/-- RAGAgent.extractKeywords (delegatingAgent.js cleaned RAGAgent copy):
    lower-case the query, split on whitespace, keep words longer than 2
    characters, take the first 3. -/
def extractKeywords (query : String) : List String :=
  ((splitOnWs (jsToLower query)).filter (fun word => 2 < word.length)).take 3

/-- Decimal digits of a proper fraction num/den by long division, with fuel.
    Used only to render numbers the way JS prints them in answer text. -/
def decFracDigits : Nat → Nat → Nat → String
  | 0, _, _ => ""
  | _, 0, _ => ""
  | fuel + 1, r, d =>
      let r10 := r * 10
      toString (r10 / d) ++ decFracDigits fuel (r10 % d) d

/-- Rendering of a JS number into a string (integers without a decimal
    point, terminating decimals in full). -/
def jsNumStr (q : Rat) : String :=
  let sign := if q < 0 then "-" else ""
  let n := q.num.natAbs
  let d := q.den
  if n % d = 0 then sign ++ toString (n / d)
  else sign ++ toString (n / d) ++ "." ++ decFracDigits 20 (n % d) d

/-- JS x.toFixed(2): round to two decimal places and pad to two digits. -/
def toFixed2 (q : Rat) : String :=
  let cents : Int := ⌊q * 100 + 1 / 2⌋
  let n := cents.natAbs
  let sign := if cents < 0 then "-" else ""
  sign ++ toString (n / 100) ++ "." ++ (if n % 100 < 10 then "0" else "") ++ toString (n % 100)

/-- JSON values, the result type of the modelled JSON.parse. -/
inductive JValue where
  | null : JValue
  | bool (b : Bool) : JValue
  | num (q : Rat) : JValue
  | str (s : String) : JValue
  | arr (elems : List JValue) : JValue
  | obj (members : List (String × JValue)) : JValue

/-- Value of a hexadecimal digit. -/
def hexVal (c : Char) : Option Nat :=
  if '0' ≤ c ∧ c ≤ '9' then some (c.toNat - '0'.toNat)
  else if 'a' ≤ c ∧ c ≤ 'f' then some (c.toNat - 'a'.toNat + 10)
  else if 'A' ≤ c ∧ c ≤ 'F' then some (c.toNat - 'A'.toNat + 10)
  else none

/-- Body of a JSON string literal, after the opening quote.  The
    accumulator is kept reversed.  Raw control characters are rejected as in
    JSON.parse. -/
def parseStrBody : List Char → List Char → Option (String × List Char)
  | _, [] => none
  | acc, c :: cs =>
    if c = '"' then some (⟨acc.reverse⟩, cs)
    else if c = '\\' then
      match cs with
      | [] => none
      | e :: cs2 =>
        if e = '"' then parseStrBody ('"' :: acc) cs2
        else if e = '\\' then parseStrBody ('\\' :: acc) cs2
        else if e = '/' then parseStrBody ('/' :: acc) cs2
        else if e = 'b' then parseStrBody (Char.ofNat 8 :: acc) cs2
        else if e = 'f' then parseStrBody (Char.ofNat 12 :: acc) cs2
        else if e = 'n' then parseStrBody ('\n' :: acc) cs2
        else if e = 'r' then parseStrBody ('\r' :: acc) cs2
        else if e = 't' then parseStrBody ('\t' :: acc) cs2
        else if e = 'u' then
          match cs2 with
          | h1 :: h2 :: h3 :: h4 :: cs3 =>
            match hexVal h1, hexVal h2, hexVal h3, hexVal h4 with
            | some a, some b, some c2, some d =>
                parseStrBody (Char.ofNat (((a * 16 + b) * 16 + c2) * 16 + d) :: acc) cs3
            | _, _, _, _ => none
          | _ => none
        else none
    else if c.toNat < 32 then none
    else parseStrBody (c :: acc) cs

/-- Numeric value of a digit list. -/
def digitsToNat (ds : List Char) : Nat :=
  ds.foldl (fun a c => a * 10 + (c.toNat - 48)) 0

/-- Sign application for parsed numbers. -/
def applySign (neg : Bool) (q : Rat) : Rat := if neg then -q else q

/-- Optional exponent part of a JSON number. -/
def parseNumExp (neg : Bool) (mant : Rat) : List Char → Option (Rat × List Char)
  | [] => some (applySign neg mant, [])
  | e :: r =>
    if e = 'e' ∨ e = 'E' then
      let p := match r with
               | '+' :: t => ((1 : Int), t)
               | '-' :: t => ((-1 : Int), t)
               | _ => ((1 : Int), r)
      let ed := p.2.takeWhile Char.isDigit
      if ed = [] then none
      else some (applySign neg (mant * (10 : Rat) ^ (p.1 * (digitsToNat ed : Int))),
                 p.2.dropWhile Char.isDigit)
    else some (applySign neg mant, e :: r)

/-- Optional fraction part of a JSON number. -/
def parseNumFrac (neg : Bool) (ip : Nat) : List Char → Option (Rat × List Char)
  | '.' :: r =>
      let fd := r.takeWhile Char.isDigit
      if fd = [] then none
      else parseNumExp neg ((ip : Rat) + (digitsToNat fd : Rat) / (10 : Rat) ^ fd.length)
             (r.dropWhile Char.isDigit)
  | l => parseNumExp neg (ip : Rat) l

/-- JSON number grammar: optional minus, integer part without leading
    zeros, optional fraction, optional exponent. -/
def parseNumber (l : List Char) : Option (Rat × List Char) :=
  let p := match l with
           | '-' :: r => (true, r)
           | _ => (false, l)
  match p.2 with
  | [] => none
  | c :: rest =>
    if c.isDigit then
      if c = '0' then
        match rest with
        | d :: _ => if d.isDigit then none else parseNumFrac p.1 0 rest
        | [] => parseNumFrac p.1 0 []
      else
        parseNumFrac p.1 (digitsToNat (p.2.takeWhile Char.isDigit)) (p.2.dropWhile Char.isDigit)
    else none

/-- Skip JSON whitespace. -/
def skipWsL (l : List Char) : List Char := l.dropWhile Char.isWhitespace

mutual

/-- JSON value parser with fuel strictly larger than the nesting depth. -/
def parseVal : Nat → List Char → Option (JValue × List Char)
  | 0, _ => none
  | fuel + 1, l =>
    match skipWsL l with
    | [] => none
    | c :: cs =>
      if c = 'n' then (if charsLead ['u', 'l', 'l'] cs then some (.null, cs.drop 3) else none)
      else if c = 't' then (if charsLead ['r', 'u', 'e'] cs then some (.bool true, cs.drop 3) else none)
      else if c = 'f' then (if charsLead ['a', 'l', 's', 'e'] cs then some (.bool false, cs.drop 4) else none)
      else if c = '"' then (parseStrBody [] cs).map (fun p => (.str p.1, p.2))
      else if c = Char.ofNat 123 then
        match skipWsL cs with
        | [] => none
        | d :: ds =>
          if d = Char.ofNat 125 then some (.obj [], ds)
          else (parseMembers fuel (d :: ds)).map (fun p => (.obj p.1, p.2))
      else if c = '[' then
        match skipWsL cs with
        | [] => none
        | d :: ds =>
          if d = ']' then some (.arr [], ds)
          else (parseElems fuel (d :: ds)).map (fun p => (.arr p.1, p.2))
      else (parseNumber (c :: cs)).map (fun p => (.num p.1, p.2))

/-- Members of a JSON object after the opening brace. -/
def parseMembers : Nat → List Char → Option (List (String × JValue) × List Char)
  | 0, _ => none
  | fuel + 1, l =>
    match skipWsL l with
    | '"' :: cs =>
      match parseStrBody [] cs with
      | none => none
      | some (key, r1) =>
        match skipWsL r1 with
        | ':' :: r2 =>
          match parseVal fuel r2 with
          | none => none
          | some (v, r3) =>
            match skipWsL r3 with
            | [] => none
            | c :: r4 =>
              if c = ',' then (parseMembers fuel r4).map (fun p => ((key, v) :: p.1, p.2))
              else if c = Char.ofNat 125 then some ([(key, v)], r4)
              else none
        | _ => none
    | _ => none

/-- Elements of a JSON array after the opening bracket. -/
def parseElems : Nat → List Char → Option (List JValue × List Char)
  | 0, _ => none
  | fuel + 1, l =>
    match parseVal fuel l with
    | none => none
    | some (v, r1) =>
      match skipWsL r1 with
      | ',' :: r2 => (parseElems fuel r2).map (fun p => (v :: p.1, p.2))
      | ']' :: r2 => some ([v], r2)
      | _ => none

end

/-- Modelled JSON.parse: parse one value and require only trailing
    whitespace after it. -/
def jsonParse (s : String) : Option JValue :=
  match parseVal (s.length + 1) s.data with
  | some (v, rest) => if skipWsL rest = [] then some v else none
  | none => none

/-- Index of the first occurrence of a character. -/
def firstIdxOf (a : Char) : List Char → Option Nat
  | [] => none
  | c :: cs => if c = a then some 0 else (firstIdxOf a cs).map (· + 1)

/-- Index of the last occurrence of a character. -/
def lastIdxOf (a : Char) : List Char → Option Nat
  | [] => none
  | c :: cs =>
    match lastIdxOf a cs with
    | some j => some (j + 1)
    | none => if c = a then some 0 else none

/-- The span matched by the greedy regex used in
    DelegatingAgent.parseJSONResponse: it starts at the first opening brace
    and extends to the last closing brace of the whole response (the
    quantifier is greedy and the character class matches newlines), or no
    match when no opening brace is followed by a closing one. -/
def jsonSpan (s : String) : Option String :=
  match firstIdxOf (Char.ofNat 123) s.data, lastIdxOf (Char.ofNat 125) s.data with
  | some i, some j => if i < j then some ⟨(s.data.drop i).take (j + 1 - i)⟩ else none
  | _, _ => none

/-- The fixed default decision returned by parseJSONResponse when no JSON
    object can be extracted or decoding fails. -/
def defaultDecision : JValue :=
  .obj [("needsRAG", .bool true), ("needsChart", .bool false),
        ("reasoning", .str "Failed to parse analysis, defaulting to RAG")]

/-- DelegatingAgent.parseJSONResponse (cleaned version): extract the greedy
    brace span, JSON-decode it, and on any failure return the fixed default
    decision.  The decoded object is returned without any validation of its
    fields. -/
def parseJSONResponse (response : String) : JValue :=
  match jsonSpan response with
  | some span =>
    match jsonParse span with
    | some v => v
    | none => defaultDecision
  | none => defaultDecision

/-- Literal alternatives of the issue-keyword regex in
    DelegatingAgent.analyzeQueryRequirements (cleaned version). -/
def issueKeywordList : List String :=
  ["issue", "problem", "fix", "trouble", "error", "common", "help", "setup", "install",
   "battery", "camera", "tv", "broken", "not working", "malfunction", "defect"]

/-- Literal alternatives of the analytics-keyword regex (the non-literal
    alternative show.*stat is modelled separately). -/
def analyticsKeywordList : List String :=
  ["analytics", "chart", "statistic", "data", "distribution", "trend", "visual",
   "graph", "report", "dashboard", "metrics"]

/-- Search for the literal stat on the current line (a dot in a JS regex
    does not match line terminators). -/
def statInLine : List Char → Bool
  | [] => false
  | c :: cs =>
    if c = '\n' ∨ c = '\r' then false
    else charsLead ['s', 't', 'a', 't'] (c :: cs) || statInLine cs

/-- The regex alternative show.*stat: some occurrence of show followed,
    with no line terminator in between, by stat. -/
def showThenStat : List Char → Bool
  | [] => false
  | c :: cs =>
    (charsLead ['s', 'h', 'o', 'w'] (c :: cs) && statInLine ((c :: cs).drop 4)) || showThenStat cs

/-- Issue-vocabulary test of the deterministic keyword classifier; the
    argument is the already lower-cased query. -/
def hasIssueKeywords (queryLower : String) : Bool :=
  issueKeywordList.any (fun k => strIncludes queryLower k)

/-- Analytics-vocabulary test of the deterministic keyword classifier; the
    argument is the already lower-cased query. -/
def hasAnalyticsKeywords (queryLower : String) : Bool :=
  analyticsKeywordList.any (fun k => strIncludes queryLower k) || showThenStat queryLower.data

/-- Quota detection on the error message of a failed classifier call. -/
def isQuotaError (msg : String) : Bool :=
  strIncludes msg "429" || strIncludes msg "Too Many Requests" ||
  strIncludes msg "quota" || strIncludes msg "rate limit"

/-- The catch block of DelegatingAgent.analyzeQueryRequirements (cleaned
    version): the deterministic keyword classifier. -/
def keywordFallbackAnalysis (userQuery : String) (errMsg : String) : JValue :=
  let queryLower := jsToLower userQuery
  .obj [("needsRAG", .bool (hasIssueKeywords queryLower)),
        ("needsChart", .bool (hasAnalyticsKeywords queryLower)),
        ("reasoning", .str (if isQuotaError errMsg then
            "Fallback analysis due to API quota limits - using keyword detection"
          else "Fallback analysis based on keywords due to LLM error"))]

/-- A support ticket as returned by the store.  String fields use the empty
    string for a missing value (falsy in JS, like undefined). -/
structure Ticket where
  ticketId : String
  ticketSubject : String
  ticketDescription : String
  resolution : String
  ticketStatus : String
  ticketPriority : String
  productPurchased : String
  firstResponseTime : String
  timeToResolution : Option Rat
  customerSatisfactionRating : Option Rat

/-- Hour and minute of a successfully parsed Date, with the ranges
    guaranteed by getHours and getMinutes. -/
structure DateParts where
  hour : Fin 24
  minute : Fin 60

/-- The Weaviate where-filter structure built by the agents. -/
inductive WhereClause where
  | like (path : String) (valueText : String) : WhereClause
  | eqf (path : String) (valueText : String) : WhereClause
  | orW (operands : List WhereClause) : WhereClause
  | andW (operands : List WhereClause) : WhereClause

/-- Outcome of a GraphQL query against the store: a thrown error (message
    plus whether error.code is ECONNREFUSED), a response whose errors array
    is non-empty (carrying the first error message), or data. -/
inductive GqlOutcome where
  | throws (msg : String) (econnCode : Bool) : GqlOutcome
  | gqlErrors (firstMsg : String) : GqlOutcome
  | ok (tickets : List Ticket) : GqlOutcome

/-- Outcome of the low-level fetchObjects call: a thrown error or a result
    that may be null (null yields the empty list in the source). -/
inductive FetchOutcome where
  | throws (msg : String) (econnCode : Bool) : FetchOutcome
  | ok (res : Option (List Ticket)) : FetchOutcome

/-- Oracles for all external capabilities consumed by one query:
    the classifier LLM call, the three store query shapes, the generator
    LLM call, the analytics scan, and Date parsing. -/
structure Env where
  llmClassify : Except String String
  semantic : String → Option String → Nat → GqlOutcome
  structured : WhereClause → Nat → GqlOutcome
  rawFetch : WhereClause → Nat → FetchOutcome
  llmGenerate : Except String String
  analyticsFetch : Option String → Except String (List Ticket)
  dateParse : String → Option DateParts

/-- RAGAgent.detectErrorType, connection part. -/
def isConnectionError (msg : String) (econnCode : Bool) : Bool :=
  strIncludes msg "ECONNREFUSED" || strIncludes msg "fetch failed" ||
  strIncludes msg "Connection refused" || econnCode

/-- RAGAgent.detectErrorType, transformer part. -/
def isTransformerError (msg : String) : Bool :=
  strIncludes msg "t2v-transformers" || strIncludes msg "vectorize" ||
  strIncludes msg "no such host" || strIncludes msg "dial tcp: lookup t2v-transformers"

/-- RAGAgent.createKeywordConditions: per keyword, an OR over subject,
    description and product Like patterns. -/
def createKeywordConditions (keywords : List String) : List WhereClause :=
  keywords.map (fun keyword =>
    .orW [.like "ticketSubject" ("*" ++ keyword ++ "*"),
          .like "ticketDescription" ("*" ++ keyword ++ "*"),
          .like "productPurchased" ("*" ++ keyword ++ "*")])

/-- The where clause built in RAGAgent.fallbackSearch (cleaned copy). -/
def fallbackWhere (query : String) (tenant : Option String) : WhereClause :=
  let keywordConditions := createKeywordConditions (extractKeywords query)
  match tenant with
  | some t => .andW [.eqf "productPurchased" t, .orW keywordConditions]
  | none => .orW keywordConditions

/-- The where filter built in RAGAgent.fetchObjectsFallback (cleaned copy);
    the source repeats the construction of fallbackSearch. -/
def fetchObjectsWhere (query : String) (tenant : Option String) : WhereClause :=
  let keywordConditions := createKeywordConditions (extractKeywords query)
  match tenant with
  | some t => .andW [.eqf "productPurchased" t, .orW keywordConditions]
  | none => .orW keywordConditions

/-- Which retrieval tier produced a result (the tier marker of the spec;
    recorded here as provenance metadata of the returning branch). -/
inductive Tier where
  | semantic : Tier
  | keywordStructured : Tier
  | keywordRaw : Tier
  | empty : Tier
deriving DecidableEq

/-- A retrieval result: the tickets and the tier that produced them. -/
structure RetrievalResult where
  tickets : List Ticket
  tier : Tier

/-- RAGAgent.fetchObjectsFallback (cleaned copy): run the raw object fetch
    with the keyword filter; any failure yields the empty result. -/
def fetchObjectsFallback (env : Env) (query : String) (tenant : Option String) (limit : Nat) :
    RetrievalResult :=
  match env.rawFetch (fetchObjectsWhere query tenant) limit with
  | .ok res =>
    match res.getD [] with
    | [] => ⟨[], .empty⟩
    | t :: ts => ⟨t :: ts, .keywordRaw⟩
  | .throws _ _ => ⟨[], .empty⟩

/-- RAGAgent.fallbackSearch (cleaned copy): run the structured keyword
    query; zero tickets proceed to the raw fetch; a thrown connection error
    short-circuits to the empty result; any other failure (including a
    GraphQL error response, whose null data makes the data access throw a
    non-connection error) proceeds to the raw fetch. -/
def fallbackSearch (env : Env) (query : String) (tenant : Option String) (limit : Nat) :
    RetrievalResult :=
  match env.structured (fallbackWhere query tenant) limit with
  | .ok [] => fetchObjectsFallback env query tenant limit
  | .ok (t :: ts) => ⟨t :: ts, .keywordStructured⟩
  | .gqlErrors _ => fetchObjectsFallback env query tenant limit
  | .throws m c =>
    if isConnectionError m c then ⟨[], .empty⟩
    else fetchObjectsFallback env query tenant limit

/-- RAGAgent.searchTickets (cleaned copy): the three-tier cascade.  On a
    GraphQL error response, a transformer message goes to the fallback; any
    other message is rethrown with the GraphQL error prefix and lands in the
    catch block, where a connection error returns empty and every other
    error (transformer or not) proceeds to the fallback.  A thrown
    connection error returns empty; any other thrown error proceeds to the
    fallback. -/
def searchTickets (env : Env) (query : String) (tenant : Option String) (limit : Nat) :
    RetrievalResult :=
  match env.semantic query tenant limit with
  | .ok tickets => ⟨tickets, .semantic⟩
  | .gqlErrors m =>
    if isTransformerError m then fallbackSearch env query tenant limit
    else if isConnectionError ("GraphQL error: " ++ m) false then ⟨[], .empty⟩
    else fallbackSearch env query tenant limit
  | .throws m c =>
    if isConnectionError m c then ⟨[], .empty⟩
    else fallbackSearch env query tenant limit

/-- References attached to a synthesized answer.  errNote models the error
    field set only by the empty-ticket branch of the template fallback. -/
structure RagRefs where
  ticketIds : List String
  fallbackUsed : Bool
  fallbackReason : Option String
  errNote : Option String

/-- Answer plus references, as returned by the answer synthesizer. -/
structure RagResponse where
  answer : String
  references : RagRefs

/-- Fixed no-results message of RAGAgent.generateResponse. -/
def noTicketsAnswer : String :=
  "I couldn\x27t find any relevant support tickets for your query. Please try rephrasing your question or check if the product name is correct."

/-- Fixed no-results message of the template fallback. -/
def fallbackNoTicketsAnswer : String :=
  "I couldn\x27t find any relevant support tickets for your query. This may be due to system limitations. Please try rephrasing your question or contact support directly."

/-- Opening line of the template fallback answer. -/
def fallbackHeader (userQuery : String) (count : Nat) : String :=
  "Based on your query \"" ++ userQuery ++ "\", I found " ++ toString count ++
  " relevant support ticket(s):\n\n"

/-- One verbatim ticket block of the template fallback: ID, priority,
    subject, product, status, then description truncated to 150 characters
    and resolution truncated to 200 characters when present. -/
def ticketBlock (t : Ticket) : String :=
  "**Ticket #" ++ t.ticketId ++ "** (" ++
    (if t.ticketPriority = "" then "Unknown" else t.ticketPriority) ++ " Priority)\n" ++
  "**Subject:** " ++ t.ticketSubject ++ "\n" ++
  "**Product:** " ++ t.productPurchased ++ "\n" ++
  "**Status:** " ++ t.ticketStatus ++ "\n" ++
  (if t.ticketDescription = "" then "" else
    "**Issue:** " ++ jsTake t.ticketDescription 150 ++
      (if 150 < t.ticketDescription.length then "..." else "") ++ "\n") ++
  (if t.resolution = "" then "" else
    "**Resolution:** " ++ jsTake t.resolution 200 ++
      (if 200 < t.resolution.length then "..." else "") ++ "\n") ++
  "\n"

/-- The remainder line appended when more than 3 tickets were retrieved. -/
def remainderLine (total : Nat) : String :=
  if 0 < total - 3 then "... and " ++ toString (total - 3) ++ " more similar ticket(s).\n" else ""

/-- The ticket loop of the template fallback: blocks are emitted in order;
    at index 2 the loop appends the remainder line and breaks. -/
def renderTickets (total : Nat) : Nat → List Ticket → String
  | _, [] => ""
  | index, t :: rest =>
    ticketBlock t ++ (if 2 ≤ index then remainderLine total else renderTickets total (index + 1) rest)

/-- Canned battery tip block. -/
def batteryTips : String :=
  "\n**General Battery Tips:**\n- Check for iOS/firmware updates\n- Review battery usage in settings\n- Consider battery replacement if device is old\n"

/-- Canned camera tip block. -/
def cameraTips : String :=
  "\n**General Camera Tips:**\n- Ensure sufficient storage space\n- Check SD card compatibility\n- Update device firmware\n"

/-- Canned setup tip block. -/
def setupTips : String :=
  "\n**General Setup Tips:**\n- Follow the quick start guide\n- Ensure stable internet connection\n- Check device compatibility\n"

/-- Tip selection of the template fallback: an if/else-if chain over the
    lower-cased query, battery first, then camera or recording, then setup
    or install. -/
def tipsBlock (userQuery : String) : String :=
  let queryLower := jsToLower userQuery
  if strIncludes queryLower "battery" then batteryTips
  else if strIncludes queryLower "camera" || strIncludes queryLower "recording" then cameraTips
  else if strIncludes queryLower "setup" || strIncludes queryLower "install" then setupTips
  else ""

/-- Closing disclosure note of the template fallback. -/
def fallbackNote : String :=
  "\n*Note: This response was generated using fallback mode due to temporary service limitations.*"

/-- RAGAgent.generateFallbackResponse (cleaned copy): the template
    renderer used when the generator LLM fails. -/
def generateFallbackResponse (userQuery : String) (tickets : List Ticket) (errMsg : String) :
    RagResponse :=
  match tickets with
  | [] => ⟨fallbackNoTicketsAnswer, ⟨[], true, none, some "No tickets found"⟩⟩
  | t :: rest =>
    let answer := fallbackHeader userQuery (t :: rest).length ++
      renderTickets (t :: rest).length 0 (t :: rest) ++ tipsBlock userQuery ++ fallbackNote
    ⟨jsTrim answer,
     ⟨(t :: rest).map Ticket.ticketId, true,
      some (if errMsg = "" then "LLM service unavailable" else errMsg), none⟩⟩

/-- RAGAgent.generateResponse (cleaned copy): fixed message on no tickets;
    otherwise the generator LLM, degrading to the template fallback. -/
def generateResponse (env : Env) (userQuery : String) (tickets : List Ticket) : RagResponse :=
  match tickets with
  | [] => ⟨noTicketsAnswer, ⟨[], false, none, none⟩⟩
  | t :: rest =>
    match env.llmGenerate with
    | .ok content => ⟨jsTrim content, ⟨(t :: rest).map Ticket.ticketId, false, none, none⟩⟩
    | .error msg => generateFallbackResponse userQuery (t :: rest) msg

/-- RAGAgent.handleQuery (cleaned copy): search with the default limit of
    10, then synthesize. -/
def ragHandleQuery (env : Env) (userQuery : String) (tenant : Option String) : RagResponse :=
  generateResponse env userQuery (searchTickets env userQuery tenant 10).tickets

/-- Labels plus the first dataset of a Chart.js configuration; the only
    parts the rest of the system reads. -/
structure ChartConfig where
  labels : List String
  values : List Rat

/-- Result of ChartTool.calculateTimeStats. -/
structure TimeStats where
  average : Rat
  min : Rat
  max : Rat
  count : Nat

/-- Result of ChartTool.calculateSatisfactionStats. -/
structure SatisfactionStats where
  average : Rat
  distribution : List (Int × Nat)
  count : Nat

/-- Result of ChartTool.processAnalyticsData. -/
structure AnalyticsData where
  statusDistribution : List (String × Nat)
  priorityDistribution : List (String × Nat)
  responseTimeStats : TimeStats
  resolutionTimeStats : TimeStats
  satisfactionStats : SatisfactionStats

/-- Increment the count of a key in an association list, appending a new
    entry for a fresh key; models incrementing a JS object field. -/
def bump {α : Type} [DecidableEq α] (key : α) : List (α × Nat) → List (α × Nat)
  | [] => [(key, 1)]
  | (k, n) :: rest => if k = key then (k, n + 1) :: rest else (k, n) :: bump key rest

/-- Counting distribution of a list of keys, in first-occurrence order. -/
def distrib {α : Type} [DecidableEq α] (keys : List α) : List (α × Nat) :=
  keys.foldl (fun acc k => bump k acc) []

/-- Sum of the counts of a distribution. -/
def sumCounts {α : Type} (d : List (α × Nat)) : Nat := (d.map Prod.snd).sum

/-- Count recorded for a key in a distribution (0 when absent). -/
def distribCount {α : Type} [DecidableEq α] : List (α × Nat) → α → Nat
  | [], _ => 0
  | (k, n) :: rest, key => if k = key then n else distribCount rest key

/-- ChartTool.parseTimeToHours: parse the timestamp as a Date and return
    getHours() + getMinutes()/60, or null when parsing fails. -/
def parseTimeToHours (dateParse : String → Option DateParts) (timeString : String) : Option Rat :=
  (dateParse timeString).map (fun d => (d.hour.val : Rat) + (d.minute.val : Rat) / 60)

/-- Ascending insertion, for the numeric sort of calculateTimeStats. -/
def insertAsc (x : Rat) : List Rat → List Rat
  | [] => [x]
  | y :: ys => if x ≤ y then x :: y :: ys else y :: insertAsc x ys

/-- Ascending sort of a list of rationals. -/
def sortAsc (l : List Rat) : List Rat := l.foldr insertAsc []

/-- Math.round(x * 100) / 100. -/
def jsRound2 (q : Rat) : Rat := ((⌊q * 100 + 1 / 2⌋ : Int) : Rat) / 100

/-- ChartTool.calculateTimeStats: zeroed structure on an empty sample,
    otherwise rounded average plus smallest and largest element. -/
def calculateTimeStats (times : List Rat) : TimeStats :=
  match times with
  | [] => ⟨0, 0, 0, 0⟩
  | t :: ts =>
    let sorted := sortAsc (t :: ts)
    let sum := (t :: ts).foldl (fun acc time => acc + time) 0
    ⟨jsRound2 (sum / ((t :: ts).length : Rat)), sorted.headD 0, sorted.getLastD 0,
     (t :: ts).length⟩

/-- ChartTool.calculateSatisfactionStats: zeroed structure on an empty
    sample, otherwise rounded average and floor-bucketed distribution. -/
def calculateSatisfactionStats (ratings : List Rat) : SatisfactionStats :=
  match ratings with
  | [] => ⟨0, [], 0⟩
  | r :: rs =>
    let sum := (r :: rs).foldl (fun acc rating => acc + rating) 0
    ⟨jsRound2 (sum / ((r :: rs).length : Rat)), distrib ((r :: rs).map (fun x => ⌊x⌋)),
     (r :: rs).length⟩

/-- Status label of a ticket, with missing values bucketed as Unknown. -/
def statusKey (t : Ticket) : String := if t.ticketStatus = "" then "Unknown" else t.ticketStatus

/-- Priority label of a ticket, with missing values bucketed as Unknown. -/
def priorityKey (t : Ticket) : String :=
  if t.ticketPriority = "" then "Unknown" else t.ticketPriority

/-- Response-time sample: tickets with a truthy first-response timestamp
    whose parse succeeds contribute its fractional hour of day. -/
def responseTimesOf (dateParse : String → Option DateParts) (tickets : List Ticket) : List Rat :=
  tickets.filterMap (fun t =>
    if t.firstResponseTime = "" then none else parseTimeToHours dateParse t.firstResponseTime)

/-- Resolution-time sample: tickets with a truthy resolution duration. -/
def resolutionTimesOf (tickets : List Ticket) : List Rat :=
  tickets.filterMap (fun t =>
    match t.timeToResolution with
    | some v => if v = 0 then none else some v
    | none => none)

/-- Satisfaction sample: tickets with a truthy rating. -/
def satisfactionRatingsOf (tickets : List Ticket) : List Rat :=
  tickets.filterMap (fun t =>
    match t.customerSatisfactionRating with
    | some v => if v = 0 then none else some v
    | none => none)

/-- ChartTool.processAnalyticsData: distributions and numeric samples in
    one pass over the scanned tickets. -/
def processAnalyticsData (dateParse : String → Option DateParts) (tickets : List Ticket) :
    AnalyticsData :=
  ⟨distrib (tickets.map statusKey), distrib (tickets.map priorityKey),
   calculateTimeStats (responseTimesOf dateParse tickets),
   calculateTimeStats (resolutionTimesOf tickets),
   calculateSatisfactionStats (satisfactionRatingsOf tickets)⟩

/-- ChartTool.createStatusChart, restricted to labels and data. -/
def createStatusChart (statusData : List (String × Nat)) : ChartConfig :=
  ⟨statusData.map Prod.fst, statusData.map (fun p => (p.2 : Rat))⟩

/-- ChartTool.createPriorityChart, restricted to labels and data. -/
def createPriorityChart (priorityData : List (String × Nat)) : ChartConfig :=
  ⟨priorityData.map Prod.fst, priorityData.map (fun p => (p.2 : Rat))⟩

/-- ChartTool.createResponseTimeChart, restricted to labels and data. -/
def createResponseTimeChart (timeStats : TimeStats) : ChartConfig :=
  ⟨["Average", "Minimum", "Maximum"], [timeStats.average, timeStats.min, timeStats.max]⟩

/-- Ascending insertion on integers, for the satisfaction label sort. -/
def insertAscInt (x : Int) : List Int → List Int
  | [] => [x]
  | y :: ys => if x ≤ y then x :: y :: ys else y :: insertAscInt x ys

/-- ChartTool.createSatisfactionChart, restricted to labels and data. -/
def createSatisfactionChart (ss : SatisfactionStats) : ChartConfig :=
  let sortedKeys := (ss.distribution.map Prod.fst).foldr insertAscInt []
  ⟨sortedKeys.map (fun k => toString k ++ " Star" ++ (if k = 1 then "" else "s")),
   sortedKeys.map (fun k => (distribCount ss.distribution k : Rat))⟩

/-- Result of ChartTool.generateAnalytics: the four chart configurations,
    or the error-chart placeholder built by getErrorChart. -/
inductive ChartsResult where
  | charts (statusDistribution priorityDistribution responseTimeChart satisfactionChart :
      ChartConfig) : ChartsResult
  | errorChart (message : String) : ChartsResult

/-- ChartTool.generateAnalytics: scan the tickets and build the charts; any
    failure yields the error chart. -/
def generateAnalytics (env : Env) (tenant : Option String) : ChartsResult :=
  match env.analyticsFetch tenant with
  | .ok tickets =>
    let a := processAnalyticsData env.dateParse tickets
    .charts (createStatusChart a.statusDistribution) (createPriorityChart a.priorityDistribution)
      (createResponseTimeChart a.responseTimeStats)
      (createSatisfactionChart a.satisfactionStats)
  | .error _ => .errorChart "Failed to generate analytics"

/-- Property lookup in a decoded JSON object; with duplicate keys the last
    assignment wins, as in JSON.parse. -/
def jGet : List (String × JValue) → String → Option JValue
  | [], _ => none
  | (k, v) :: rest, key =>
    match jGet rest key with
    | some w => some w
    | none => if k = key then some v else none

/-- JS property access on a decoded value: undefined on non-objects. -/
def jLook (v : JValue) (key : String) : Option JValue :=
  match v with
  | .obj kvs => jGet kvs key
  | _ => none

/-- JS truthiness of a possibly-undefined decoded value. -/
def jTruthy : Option JValue → Bool
  | none => false
  | some .null => false
  | some (.bool b) => b
  | some (.num q) => if q = 0 then false else true
  | some (.str s) => if s = "" then false else true
  | some (.arr _) => true
  | some (.obj _) => true

/-- DelegatingAgent.analyzeQueryRequirements (cleaned version): ask the
    classifier and decode its output; when the call itself fails, run the
    deterministic keyword classifier. -/
def analyzeQueryRequirements (env : Env) (userQuery : String) : JValue :=
  match env.llmClassify with
  | .ok content => parseJSONResponse content
  | .error msg => keywordFallbackAnalysis userQuery msg

/-- One distribution section of the merged answer text. -/
def distLines (c : ChartConfig) : String :=
  String.join (List.zipWith
    (fun label v => "- **" ++ label ++ ":** " ++ jsNumStr v ++ " tickets\n") c.labels c.values)

/-- The response-time section of the merged answer text; the dataset always
    has the three entries, so the N/A branch mirrors only the optional
    chaining of the source. -/
def responseTimeLines (c : ChartConfig) : String :=
  "**Response Time Statistics:**\n" ++
  "- **Average:** " ++ (match c.values.get? 0 with | some v => toFixed2 v | none => "N/A") ++
  " hours\n" ++
  "- **Minimum:** " ++ (match c.values.get? 1 with | some v => toFixed2 v | none => "N/A") ++
  " hours\n" ++
  "- **Maximum:** " ++ (match c.values.get? 2 with | some v => toFixed2 v | none => "N/A") ++
  " hours\n\n"

/-- Fixed analytics introduction of the merged answer text. -/
def analyticsIntro : String :=
  "I\x27ve generated comprehensive analytics for your support tickets:\n\n"

/-- Fixed analytics section header of the merged answer text. -/
def dashboardHeader : String := "📊 **Analytics Dashboard:**\n"

/-- Fixed message when neither branch produced text. -/
def noResultsMessage : String :=
  "I couldn\x27t find specific information for your query. Please try asking about support issues or requesting analytics."

/-- DelegatingAgent.combineResults (cleaned version): retrieval text first,
    then the analytics sections when a chart result is present; the error
    chart exposes none of the expected fields, so only the header and
    introduction are appended for it; the final text is trimmed. -/
def combineResults (ragResult : Option RagResponse) (chartResult : Option ChartsResult) :
    String :=
  let a0 := match ragResult with
            | some r => r.answer
            | none => ""
  let a1 := match chartResult with
            | none => a0
            | some cr =>
              let h := (if a0 = "" then dashboardHeader else a0 ++ "\n\n" ++ dashboardHeader) ++
                analyticsIntro
              match cr with
              | .charts st pr rt _ =>
                h ++ "**Ticket Status Distribution:**\n" ++ distLines st ++ "\n" ++
                "**Ticket Priority Distribution:**\n" ++ distLines pr ++ "\n" ++
                responseTimeLines rt
              | .errorChart _ => h
  jsTrim (if a1 = "" then noResultsMessage else a1)

/-- The composed answer returned by DelegatingAgent.handleQuery: answer
    text, the thread identifier echoed in the references, the ticket ids
    copied from the retrieval branch when it ran, and the chart result when
    the analytics branch ran. -/
structure ComposedAnswer where
  answer : String
  threadId : String
  ticketIds : Option (List String)
  chart : Option ChartsResult

/-- DelegatingAgent.handleQuery (cleaned version): classify, run the
    branches the decision asks for, and merge. -/
def handleQuery (env : Env) (userQuery : String) (tenant : Option String) (threadId : String) :
    ComposedAnswer :=
  let analysis := analyzeQueryRequirements env userQuery
  let ragResult := if jTruthy (jLook analysis "needsRAG")
                   then some (ragHandleQuery env userQuery tenant) else none
  let chartResult := if jTruthy (jLook analysis "needsChart")
                     then some (generateAnalytics env tenant) else none
  ⟨combineResults ragResult chartResult, threadId,
   ragResult.map (fun r => r.references.ticketIds), chartResult⟩

/-- Comparison definition for claim C6, following the words of the spec:
    extract up to 3 keywords (lower-case, whitespace-split, drop tokens of
    length at most 2, first 3 in original order), build an OR over the
    per-keyword subject/description/product substring matches, and AND the
    disjunction with an exact tenant equality when a tenant is given. -/
def specKeywordFilter (query : String) (tenant : Option String) : WhereClause :=
  let kws := ((splitOnWs (jsToLower query)).filter (fun w => 2 < w.length)).take 3
  let disjunction := WhereClause.orW (kws.map (fun k =>
    .orW [.like "ticketSubject" ("*" ++ k ++ "*"),
          .like "ticketDescription" ("*" ++ k ++ "*"),
          .like "productPurchased" ("*" ++ k ++ "*")]))
  match tenant with
  | some t => .andW [.eqf "productPurchased" t, disjunction]
  | none => .orW (kws.map (fun k =>
      .orW [.like "ticketSubject" ("*" ++ k ++ "*"),
            .like "ticketDescription" ("*" ++ k ++ "*"),
            .like "productPurchased" ("*" ++ k ++ "*")]))

/-- Scanner for the first balanced brace span, starting at an opening
    brace: depth goes up at opening braces and down at closing ones, and the
    span ends at the closing brace that brings the depth back to zero. -/
def balancedSpanAux : Nat → List Char → List Char → Option (List Char)
  | _, _, [] => none
  | depth, acc, c :: cs =>
    if c = Char.ofNat 123 then balancedSpanAux (depth + 1) (c :: acc) cs
    else if c = Char.ofNat 125 then
      (if depth = 1 then some ((c :: acc).reverse) else balancedSpanAux (depth - 1) (c :: acc) cs)
    else balancedSpanAux depth (c :: acc) cs

/-- Comparison definition for claim C3, following the words of the spec:
    the first balanced brace-delimited span of the surrounding text (braces
    inside string literals are not treated specially by this reading). -/
def specFirstBalancedSpan (s : String) : Option String :=
  match firstIdxOf (Char.ofNat 123) s.data with
  | none => none
  | some i => (balancedSpanAux 0 [] (s.data.drop i)).map (fun cs => ⟨cs⟩)

/-- A sample resolved ticket used by concrete witnesses. -/
def sampleTicket : Ticket :=
  ⟨"T-1001", "Battery drains fast", "The battery drains overnight even in standby",
   "Replaced the battery under warranty", "Closed", "High", "SmartWatch",
   "2023-06-01T14:30:00Z", some 24, some 4⟩

/-- A second sample ticket, with a missing status, used by witnesses. -/
def sampleTicket2 : Ticket :=
  ⟨"T-1002", "Camera will not record", "", "", "", "Low", "ActionCam", "", none, some 5⟩

/-- Environment in which every external capability fails; used by concrete
    total-failure scenarios. -/
def envFailAll : Env :=
  ⟨.error "429 Too Many Requests: quota exceeded",
   fun _ _ _ => .throws "fetch failed" false,
   fun _ _ => .throws "fetch failed" false,
   fun _ _ => .throws "fetch failed" false,
   .error "429 quota exceeded",
   fun _ => .error "fetch failed",
   fun _ => none⟩

/-- Environment in which the semantic tier reports an embedding failure and
    the structured tier returns one ticket. -/
def envTierTwo : Env :=
  ⟨.error "boom",
   fun _ _ _ => .gqlErrors "dial tcp: lookup t2v-transformers failed",
   fun _ _ => .ok [sampleTicket],
   fun _ _ => .throws "fetch failed" false,
   .error "boom",
   fun _ => .error "boom",
   fun _ => none⟩

/-- Environment in which the semantic tier reports an embedding failure,
    the structured tier returns nothing, and the raw fetch returns one
    ticket. -/
def envTierThree : Env :=
  ⟨.error "boom",
   fun _ _ _ => .gqlErrors "update vectorize settings",
   fun _ _ => .ok [],
   fun _ _ => .ok (some [sampleTicket2]),
   .error "boom",
   fun _ => .error "boom",
   fun _ => none⟩

/-- A fixed Date-parsing oracle used by concrete witnesses: the sample
    timestamp parses to 14:30, everything else fails to parse. -/
def pdSample : String → Option DateParts :=
  fun s => if s = "2023-06-01T14:30:00Z" then some ⟨⟨14, by omega⟩, ⟨30, by omega⟩⟩ else none

/-- Environment in which the semantic tier throws a connection error while
    the later tiers would succeed; used to check the short-circuit. -/
def envConnDown : Env :=
  ⟨.error "x",
   fun _ _ _ => .throws "connect ECONNREFUSED 127.0.0.1:8080" false,
   fun _ _ => .ok [sampleTicket],
   fun _ _ => .ok (some [sampleTicket]),
   .error "x",
   fun _ => .error "x",
   fun _ => none⟩

/-- Environment in which the semantic tier reports an embedding failure and
    the structured tier throws a connection error while the raw fetch would
    succeed; used to check the Tier 2 short-circuit. -/
def envTierTwoConnDown : Env :=
  ⟨.error "x",
   fun _ _ _ => .gqlErrors "t2v-transformers unreachable",
   fun _ _ => .throws "Connection refused" false,
   fun _ _ => .ok (some [sampleTicket]),
   .error "x",
   fun _ => .error "x",
   fun _ => none⟩

/-- A concrete user query used by witnesses. -/
def sampleQueryFix : String := "How do I fix my iPhone battery issue"

/-- A concrete query naming all three tip categories, used by witnesses. -/
def sampleQueryTips : String := "battery camera setup install"

/-- A concrete query naming the camera and setup categories only. -/
def sampleQueryCamera : String := "camera setup"

/-- A classifier output with a JSON object followed by extra braces: the
    greedy span is the whole string, while the first balanced span is the
    leading object. -/
def sampleResponseGreedy : String :=
  "\x7b\"needsRAG\": false, \"needsChart\": true\x7d \x7b\x7d"

/-- The first balanced brace span of sampleResponseGreedy. -/
def sampleBalanced : String := "\x7b\"needsRAG\": false, \"needsChart\": true\x7d"

/-- A classifier output whose decoded object has a non-boolean needsRAG
    field; the router uses it as-is, without validation. -/
def sampleUnvalidated : String := "\x7b\"needsRAG\": \"yes\"\x7d"

/-- A GraphQL outcome that is not a successful data response. -/
def gqlNotOk : GqlOutcome → Prop
  | .ok _ => False
  | _ => True

/-- A GraphQL outcome that failed or returned no tickets. -/
def gqlFailOrEmpty : GqlOutcome → Prop
  | .ok ts => ts = []
  | _ => True

/-- A fetch outcome that failed or returned no tickets. -/
def fetchFailOrEmpty : FetchOutcome → Prop
  | .ok r => r.getD [] = []
  | _ => True

/-- Tier 1 failed with an embedding-service failure for the given call:
    either the GraphQL response carried a transformer error message, or the
    call threw a non-connection transformer error. -/
def tier1EmbedFail (env : Env) (query : String) (tenant : Option String) (limit : Nat) : Prop :=
  (∃ m, env.semantic query tenant limit = .gqlErrors m ∧ isTransformerError m = true) ∨
  (∃ m c, env.semantic query tenant limit = .throws m c ∧ isConnectionError m c = false ∧
    isTransformerError m = true)

/-- Every external capability of the environment fails. -/
def totalFailure (env : Env) : Prop :=
  (∃ m, env.llmClassify = .error m) ∧
  (∀ q t l, gqlNotOk (env.semantic q t l)) ∧
  (∀ w l, gqlNotOk (env.structured w l)) ∧
  (∀ w l, ∃ m c, env.rawFetch w l = .throws m c) ∧
  (∃ m, env.llmGenerate = .error m) ∧
  (∀ t, ∃ m, env.analyticsFetch t = .error m)

/-- A string that is either empty or contains a non-whitespace character;
    every answer produced by the synthesizer has this shape, which makes the
    final trim in the merge step preserve non-emptiness. -/
def TrimSafe (s : String) : Prop :=
  s = "" ∨ ∃ c ∈ s.data, c.isWhitespace = false

/- ## Helper lemmas -/

theorem strData_append (s t : String) : (s ++ t).data = s.data ++ t.data := rfl

theorem dropWhile_ex {p : Char → Bool} :
    ∀ l : List Char, (∃ c ∈ l, p c = false) → ∃ c ∈ l.dropWhile p, p c = false := by
  intro l h
  induction l with
  | nil => simp at h
  | cons a as ih =>
    by_cases hp : p a = true
    · rw [List.dropWhile_cons_of_pos hp]
      apply ih
      obtain ⟨c, hc, hcf⟩ := h
      rcases List.mem_cons.mp hc with rfl | hmem
      · rw [hp] at hcf; cases hcf
      · exact ⟨c, hmem, hcf⟩
    · rw [List.dropWhile_cons_of_neg hp]
      exact ⟨a, List.mem_cons_self a as, Bool.eq_false_iff.mpr hp⟩

theorem head_dropWhile_false {p : Char → Bool} :
    ∀ (l : List Char) c rest, l.dropWhile p = c :: rest → p c = false := by
  intro l
  induction l with
  | nil => intro c rest h; cases h
  | cons a as ih =>
    intro c rest h
    by_cases hp : p a = true
    · rw [List.dropWhile_cons_of_pos hp] at h
      exact ih c rest h
    · rw [List.dropWhile_cons_of_neg hp] at h
      cases h
      exact Bool.eq_false_iff.mpr hp

theorem trimChars_ex {l : List Char} (h : ∃ c ∈ l, c.isWhitespace = false) :
    ∃ c ∈ trimChars l, c.isWhitespace = false := by
  unfold trimChars
  have h1 := dropWhile_ex l h
  have h2 : ∃ c ∈ (l.dropWhile Char.isWhitespace).reverse, c.isWhitespace = false := by
    obtain ⟨c, hc, hf⟩ := h1
    exact ⟨c, List.mem_reverse.mpr hc, hf⟩
  have h3 := dropWhile_ex _ h2
  obtain ⟨c, hc, hf⟩ := h3
  exact ⟨c, List.mem_reverse.mpr hc, hf⟩

theorem trimChars_ne_nil {l : List Char} (h : ∃ c ∈ l, c.isWhitespace = false) :
    trimChars l ≠ [] := by
  obtain ⟨c, hc, _⟩ := trimChars_ex h
  intro hnil
  rw [hnil] at hc
  cases hc

theorem jsTrim_ne_empty {s : String} (h : ∃ c ∈ s.data, c.isWhitespace = false) :
    jsTrim s ≠ "" := by
  unfold jsTrim
  intro hcontra
  have : trimChars s.data = [] := congrArg String.data hcontra
  exact trimChars_ne_nil h this

theorem trimChars_mem_of_ne_nil {l : List Char} (h : trimChars l ≠ []) :
    ∃ c ∈ trimChars l, c.isWhitespace = false := by
  unfold trimChars at h ⊢
  match hv : (l.dropWhile Char.isWhitespace).reverse.dropWhile Char.isWhitespace with
  | [] =>
    rw [hv] at h
    exact absurd rfl h
  | c :: rest =>
    exact ⟨c, List.mem_reverse.mpr (List.mem_cons_self c rest),
      head_dropWhile_false _ c rest hv⟩

theorem trimSafe_jsTrim (s : String) : TrimSafe (jsTrim s) := by
  by_cases h : trimChars s.data = []
  · left
    unfold jsTrim
    rw [h]
  · right
    exact trimChars_mem_of_ne_nil h

/- Distribution lemmas -/

theorem sumCounts_bump {α : Type} [DecidableEq α] (key : α) (d : List (α × Nat)) :
    sumCounts (bump key d) = sumCounts d + 1 := by
  induction d with
  | nil => rfl
  | cons p rest ih =>
    obtain ⟨k, n⟩ := p
    unfold bump
    by_cases h : k = key
    · simp [h, sumCounts]
      omega
    · simp [h, sumCounts] at ih ⊢
      omega

theorem sumCounts_foldl {α : Type} [DecidableEq α] (keys : List α) (acc : List (α × Nat)) :
    sumCounts (keys.foldl (fun a k => bump k a) acc) = sumCounts acc + keys.length := by
  induction keys generalizing acc with
  | nil => simp
  | cons k ks ih =>
    rw [List.foldl_cons, ih, sumCounts_bump]
    simp
    omega

theorem sumCounts_distrib {α : Type} [DecidableEq α] (keys : List α) :
    sumCounts (distrib keys) = keys.length := by
  unfold distrib
  rw [sumCounts_foldl]
  simp [sumCounts]

theorem distribCount_bump {α : Type} [DecidableEq α] (key k : α) (d : List (α × Nat)) :
    distribCount (bump key d) k = distribCount d k + (if k = key then 1 else 0) := by
  induction d with
  | nil =>
    by_cases h : k = key
    · subst h
      simp [bump, distribCount]
    · have h2 : ¬ key = k := fun e => h e.symm
      simp [bump, distribCount, h, h2]
  | cons p rest ih =>
    obtain ⟨a, n⟩ := p
    by_cases ha : a = key
    · subst ha
      by_cases hk : a = k
      · subst hk
        simp [bump, distribCount]
      · have h2 : ¬ k = a := fun e => hk e.symm
        simp [bump, distribCount, hk, h2]
    · by_cases hk : a = k
      · subst hk
        simp [bump, ha, distribCount]
      · simp [bump, ha, distribCount, hk, ih]

theorem distribCount_foldl {α : Type} [DecidableEq α] (keys : List α) (acc : List (α × Nat))
    (k : α) :
    distribCount (keys.foldl (fun a k2 => bump k2 a) acc) k = distribCount acc k + keys.count k := by
  induction keys generalizing acc with
  | nil => simp
  | cons k2 ks ih =>
    rw [List.foldl_cons, ih, distribCount_bump, List.count_cons]
    simp only [beq_iff_eq]
    by_cases h : k = k2
    · subst h
      simp
      omega
    · have h2 : ¬ k2 = k := fun e => h e.symm
      simp [h, h2]

theorem distribCount_distrib {α : Type} [DecidableEq α] (keys : List α) (k : α) :
    distribCount (distrib keys) k = keys.count k := by
  unfold distrib
  rw [distribCount_foldl]
  simp [distribCount]

/- Cascade failure lemmas -/

theorem fetchObjectsFallback_fail (env : Env) (query : String) (tenant : Option String)
    (limit : Nat) (h : fetchFailOrEmpty (env.rawFetch (fetchObjectsWhere query tenant) limit)) :
    fetchObjectsFallback env query tenant limit = ⟨[], .empty⟩ := by
  unfold fetchObjectsFallback
  match hv : env.rawFetch (fetchObjectsWhere query tenant) limit with
  | .throws m c => rfl
  | .ok r =>
    unfold fetchFailOrEmpty at h
    rw [hv] at h
    simp only [h]

theorem fallbackSearch_fail (env : Env) (query : String) (tenant : Option String)
    (limit : Nat) (h2 : gqlFailOrEmpty (env.structured (fallbackWhere query tenant) limit))
    (h3 : fetchFailOrEmpty (env.rawFetch (fetchObjectsWhere query tenant) limit)) :
    fallbackSearch env query tenant limit = ⟨[], .empty⟩ := by
  unfold fallbackSearch
  match hv : env.structured (fallbackWhere query tenant) limit with
  | .ok [] => exact fetchObjectsFallback_fail env query tenant limit h3
  | .ok (t :: ts) =>
    unfold gqlFailOrEmpty at h2
    rw [hv] at h2
    cases h2
  | .gqlErrors m => exact fetchObjectsFallback_fail env query tenant limit h3
  | .throws m c =>
    by_cases hc : isConnectionError m c = true
    · simp [hc]
    · simp [Bool.eq_false_iff.mpr hc]
      exact fetchObjectsFallback_fail env query tenant limit h3

theorem searchTickets_fail (env : Env) (query : String) (tenant : Option String)
    (limit : Nat) (h1 : gqlNotOk (env.semantic query tenant limit))
    (h2 : gqlFailOrEmpty (env.structured (fallbackWhere query tenant) limit))
    (h3 : fetchFailOrEmpty (env.rawFetch (fetchObjectsWhere query tenant) limit)) :
    (searchTickets env query tenant limit).tickets = [] := by
  unfold searchTickets
  match hv : env.semantic query tenant limit with
  | .ok ts =>
    unfold gqlNotOk at h1
    rw [hv] at h1
    cases h1
  | .gqlErrors m =>
    have hfb := fallbackSearch_fail env query tenant limit h2 h3
    by_cases ht : isTransformerError m = true
    · simp [ht, hfb]
    · simp only [Bool.eq_false_iff.mpr ht, if_false]
      by_cases hc : isConnectionError ("GraphQL error: " ++ m) false = true
      · simp [hc]
      · simp [Bool.eq_false_iff.mpr hc, hfb]
  | .throws m c =>
    have hfb := fallbackSearch_fail env query tenant limit h2 h3
    by_cases hc : isConnectionError m c = true
    · simp [hc]
    · simp [Bool.eq_false_iff.mpr hc, hfb]

/- Synthesizer and merge lemmas -/

theorem generateFallbackResponse_trimSafe (userQuery : String) (tickets : List Ticket)
    (errMsg : String) : TrimSafe (generateFallbackResponse userQuery tickets errMsg).answer := by
  match tickets with
  | [] =>
    right
    show ∃ c ∈ fallbackNoTicketsAnswer.data, c.isWhitespace = false
    exact ⟨'I', by decide, by decide⟩
  | t :: rest =>
    exact trimSafe_jsTrim _

theorem generateResponse_trimSafe (env : Env) (userQuery : String) (tickets : List Ticket) :
    TrimSafe (generateResponse env userQuery tickets).answer := by
  match tickets with
  | [] =>
    right
    show ∃ c ∈ noTicketsAnswer.data, c.isWhitespace = false
    exact ⟨'I', by decide, by decide⟩
  | t :: rest =>
    cases hg : env.llmGenerate with
    | ok content =>
      have : (generateResponse env userQuery (t :: rest)).answer = jsTrim content := by
        unfold generateResponse
        rw [hg]
      rw [this]
      exact trimSafe_jsTrim content
    | error msg =>
      have : generateResponse env userQuery (t :: rest) =
          generateFallbackResponse userQuery (t :: rest) msg := by
        unfold generateResponse
        rw [hg]
      rw [this]
      exact generateFallbackResponse_trimSafe userQuery (t :: rest) msg

theorem ragHandleQuery_trimSafe (env : Env) (userQuery : String) (tenant : Option String) :
    TrimSafe (ragHandleQuery env userQuery tenant).answer :=
  generateResponse_trimSafe env userQuery _

theorem trimSafe_append_right {t : String} (s : String)
    (h : ∃ c ∈ t.data, c.isWhitespace = false) :
    ∃ c ∈ (s ++ t).data, c.isWhitespace = false := by
  obtain ⟨c, hc, hf⟩ := h
  refine ⟨c, ?_, hf⟩
  rw [strData_append]
  exact List.mem_append_right _ hc

theorem trimSafe_append_left {s : String} (t : String)
    (h : ∃ c ∈ s.data, c.isWhitespace = false) :
    ∃ c ∈ (s ++ t).data, c.isWhitespace = false := by
  obtain ⟨c, hc, hf⟩ := h
  refine ⟨c, ?_, hf⟩
  rw [strData_append]
  exact List.mem_append_left _ hc

theorem jsTrim_ite_ne (s : String) (hs : TrimSafe s) :
    jsTrim (if s = "" then noResultsMessage else s) ≠ "" := by
  by_cases h : s = ""
  · rw [if_pos h]
    decide
  · rw [if_neg h]
    rcases hs with he | hex
    · exact absurd he h
    · exact jsTrim_ne_empty hex

theorem analyticsIntro_has : ∃ c ∈ analyticsIntro.data, c.isWhitespace = false :=
  ⟨'I', by decide, by decide⟩

theorem combineResults_ne_empty (ragResult : Option RagResponse)
    (chartResult : Option ChartsResult)
    (h : ∀ r, ragResult = some r → TrimSafe r.answer) :
    combineResults ragResult chartResult ≠ "" := by
  rcases chartResult with _ | cr
  · rcases ragResult with _ | r
    · exact jsTrim_ite_ne "" (Or.inl rfl)
    · exact jsTrim_ite_ne r.answer (h r rfl)
  · rcases cr with ⟨st, pr, rt, sat⟩ | msg
    · exact jsTrim_ite_ne _
        (Or.inr (trimSafe_append_left _ (trimSafe_append_left _ (trimSafe_append_left _
          (trimSafe_append_left _ (trimSafe_append_left _ (trimSafe_append_left _
            (trimSafe_append_left _ (trimSafe_append_right _ analyticsIntro_has)))))))))
    · exact jsTrim_ite_ne _ (Or.inr (trimSafe_append_right _ analyticsIntro_has))

theorem handleQuery_answer_ne (env : Env) (userQuery : String) (tenant : Option String)
    (threadId : String) : (handleQuery env userQuery tenant threadId).answer ≠ "" := by
  apply combineResults_ne_empty
  intro r hr
  by_cases hb : jTruthy (jLook (analyzeQueryRequirements env userQuery) "needsRAG") = true
  · rw [if_pos hb] at hr
    rw [← Option.some.inj hr]
    exact ragHandleQuery_trimSafe env userQuery tenant
  · rw [if_neg hb] at hr
    cases hr

/- ## Claim theorems -/

/-- Claim C6 (confirmed): the Tier 2 structured filter is built from up to
    3 keywords (lower-cased, whitespace-split, tokens of length at most 2
    dropped, first 3 kept in original order), each matched as a substring
    pattern against subject OR description OR product, the disjunction ANDed
    with an exact tenant equality when a tenant is given; the Tier 3 filter
    is constructed identically. -/
theorem claim6_theorem (query : String) (tenant : Option String) :
    fallbackWhere query tenant = specKeywordFilter query tenant ∧
    fetchObjectsWhere query tenant = fallbackWhere query tenant ∧
    (extractKeywords query).length ≤ 3 ∧
    (∀ k ∈ extractKeywords query, 2 < k.length) ∧
    (extractKeywords query).Sublist (splitOnWs (jsToLower query)) := by
  refine ⟨?_, ?_, ?_, ?_, ?_⟩
  · cases tenant <;> rfl
  · cases tenant <;> rfl
  · unfold extractKeywords
    simp [List.length_take]
  · intro k hk
    unfold extractKeywords at hk
    have hk2 := List.take_subset 3 _ hk
    exact of_decide_eq_true (List.mem_filter.mp hk2).2
  · unfold extractKeywords
    exact (List.take_sublist _ _).trans (List.filter_sublist _)

/-- Claim C6 witness: the filter facts at a concrete query and tenant. -/
theorem claim6_witness :
    fallbackWhere sampleQueryFix (some "iPhone") =
      specKeywordFilter sampleQueryFix (some "iPhone") ∧
    fetchObjectsWhere sampleQueryFix (some "iPhone") =
      fallbackWhere sampleQueryFix (some "iPhone") ∧
    2 < ("how" : String).length ∧
    extractKeywords sampleQueryFix = ["how", "fix", "iphone"] :=
  ⟨(claim6_theorem sampleQueryFix (some "iPhone")).1,
   (claim6_theorem sampleQueryFix (some "iPhone")).2.1,
   (claim6_theorem sampleQueryFix (some "iPhone")).2.2.2.1 "how" (by decide),
   by decide⟩

/-- Claim C7 (confirmed): for any 5 tickets and a forced generation
    failure, the template fallback answer consists of the header, exactly
    the first 3 verbatim ticket blocks, the remainder line counting the 2
    omitted tickets, the optional tip block and the disclosure note; the
    references carry all 5 ticket ids; truncation never exceeds 150
    characters for the description and 200 for the resolution. -/
theorem claim7_theorem (userQuery errMsg : String) (t0 t1 t2 t3 t4 : Ticket) :
    (generateFallbackResponse userQuery [t0, t1, t2, t3, t4] errMsg).answer =
      jsTrim (fallbackHeader userQuery 5 ++
        (ticketBlock t0 ++ (ticketBlock t1 ++ (ticketBlock t2 ++ remainderLine 5))) ++
        tipsBlock userQuery ++ fallbackNote) ∧
    remainderLine 5 = "... and 2 more similar ticket(s).\n" ∧
    (generateFallbackResponse userQuery [t0, t1, t2, t3, t4] errMsg).references.ticketIds =
      [t0.ticketId, t1.ticketId, t2.ticketId, t3.ticketId, t4.ticketId] ∧
    (∀ t : Ticket, (jsTake t.ticketDescription 150).length ≤ 150 ∧
      (jsTake t.resolution 200).length ≤ 200) := by
  refine ⟨rfl, by decide, rfl, ?_⟩
  intro t
  constructor
  · show (t.ticketDescription.data.take 150).length ≤ 150
    simp [List.length_take]
  · show (t.resolution.data.take 200).length ≤ 200
    simp [List.length_take]

/-- Claim C8 (confirmed): status counts and priority counts each sum to the
    number of scanned tickets, missing statuses are bucketed under Unknown,
    and the empty ticket set produces the zeroed well-formed summary. -/
theorem claim8_theorem (dateParse : String → Option DateParts) (tickets : List Ticket) :
    sumCounts (processAnalyticsData dateParse tickets).statusDistribution = tickets.length ∧
    sumCounts (processAnalyticsData dateParse tickets).priorityDistribution = tickets.length ∧
    (∀ t ∈ tickets, t.ticketStatus = "" →
      0 < distribCount (processAnalyticsData dateParse tickets).statusDistribution "Unknown") ∧
    processAnalyticsData dateParse [] =
      ⟨[], [], ⟨0, 0, 0, 0⟩, ⟨0, 0, 0, 0⟩, ⟨0, [], 0⟩⟩ := by
  refine ⟨?_, ?_, ?_, rfl⟩
  · show sumCounts (distrib (tickets.map statusKey)) = tickets.length
    rw [sumCounts_distrib, List.length_map]
  · show sumCounts (distrib (tickets.map priorityKey)) = tickets.length
    rw [sumCounts_distrib, List.length_map]
  · intro t ht hs
    show 0 < distribCount (distrib (tickets.map statusKey)) "Unknown"
    rw [distribCount_distrib]
    have hmem : "Unknown" ∈ tickets.map statusKey := by
      refine List.mem_map.mpr ⟨t, ht, ?_⟩
      unfold statusKey
      rw [if_pos hs]
    rcases Nat.eq_zero_or_pos (List.count "Unknown" (tickets.map statusKey)) with h0 | hp
    · exact absurd hmem (List.count_eq_zero.mp h0)
    · exact hp

/-- Claim C8 witness: the aggregation facts at a concrete two-ticket set,
    one of which has a missing status. -/
theorem claim8_witness :
    sumCounts (processAnalyticsData pdSample [sampleTicket, sampleTicket2]).statusDistribution
      = 2 ∧
    0 < distribCount
      (processAnalyticsData pdSample [sampleTicket, sampleTicket2]).statusDistribution
      "Unknown" ∧
    processAnalyticsData pdSample [] = ⟨[], [], ⟨0, 0, 0, 0⟩, ⟨0, 0, 0, 0⟩, ⟨0, [], 0⟩⟩ :=
  ⟨(claim8_theorem pdSample [sampleTicket, sampleTicket2]).1,
   (claim8_theorem pdSample [sampleTicket, sampleTicket2]).2.2.1 sampleTicket2
     (by simp) rfl,
   (claim8_theorem pdSample []).2.2.2⟩

theorem hourOfDay_nonneg_lt (d : DateParts) :
    0 ≤ (d.hour.val : Rat) + (d.minute.val : Rat) / 60 ∧
    (d.hour.val : Rat) + (d.minute.val : Rat) / 60 < 24 := by
  have h1 : (d.hour.val : Rat) ≤ 23 := by
    have := d.hour.isLt
    exact_mod_cast Nat.lt_succ_iff.mp this
  have h2 : (d.minute.val : Rat) ≤ 59 := by
    have := d.minute.isLt
    exact_mod_cast Nat.lt_succ_iff.mp this
  have h3 : (0 : Rat) ≤ (d.hour.val : Rat) := Nat.cast_nonneg _
  have h4 : (0 : Rat) ≤ (d.minute.val : Rat) := Nat.cast_nonneg _
  exact ⟨by positivity, by linarith⟩

/-- Claim C9 (confirmed): every value entering the response-time sample is
    the fractional hour of day (hours plus minutes over 60, in the interval
    from 0 inclusive to 24 exclusive) of some ticket whose timestamp parsed;
    a parsed timestamp contributes exactly that value, and an unparseable
    timestamp contributes nothing. -/
theorem claim9_theorem (dateParse : String → Option DateParts) (tickets : List Ticket) :
    (∀ x ∈ responseTimesOf dateParse tickets,
      (0 ≤ x ∧ x < 24) ∧
      ∃ t ∈ tickets, t.firstResponseTime ≠ "" ∧
        ∃ d, dateParse t.firstResponseTime = some d ∧
          x = (d.hour.val : Rat) + (d.minute.val : Rat) / 60) ∧
    (∀ s d, dateParse s = some d →
      parseTimeToHours dateParse s = some ((d.hour.val : Rat) + (d.minute.val : Rat) / 60)) ∧
    (∀ s, dateParse s = none → parseTimeToHours dateParse s = none) := by
  refine ⟨?_, ?_, ?_⟩
  · intro x hx
    unfold responseTimesOf at hx
    obtain ⟨t, ht, heq⟩ := List.mem_filterMap.mp hx
    by_cases hf : t.firstResponseTime = ""
    · rw [if_pos hf] at heq
      cases heq
    · rw [if_neg hf] at heq
      unfold parseTimeToHours at heq
      obtain ⟨d, hd, hxd⟩ := Option.map_eq_some'.mp heq
      refine ⟨?_, t, ht, hf, d, hd, hxd.symm⟩
      rw [← hxd]
      exact hourOfDay_nonneg_lt d
  · intro s d hd
    unfold parseTimeToHours
    rw [hd]
    rfl
  · intro s hd
    unfold parseTimeToHours
    rw [hd]
    rfl

/-- Claim C9 witness: the sample timestamp parses to 14:30 and contributes
    exactly 14 + 30/60 to the sample. -/
theorem claim9_witness :
    parseTimeToHours pdSample "2023-06-01T14:30:00Z" =
      some (((14 : Nat) : Rat) + ((30 : Nat) : Rat) / 60) ∧
    parseTimeToHours pdSample "not a timestamp" = none :=
  ⟨(claim9_theorem pdSample []).2.1 "2023-06-01T14:30:00Z" ⟨⟨14, by omega⟩, ⟨30, by omega⟩⟩ rfl,
   (claim9_theorem pdSample []).2.2 "not a timestamp" rfl⟩

/-- Claim C10 (confirmed): at most one canned tip block is appended to the
    template fallback answer, chosen with fixed precedence battery, then
    camera or recording, then setup or install; the rendered answer appends
    the selected block exactly once. -/
theorem claim10_theorem (userQuery errMsg : String) (t : Ticket) (ts : List Ticket) :
    (tipsBlock userQuery = batteryTips ∨ tipsBlock userQuery = cameraTips ∨
     tipsBlock userQuery = setupTips ∨ tipsBlock userQuery = "") ∧
    (strIncludes (jsToLower userQuery) "battery" = true → tipsBlock userQuery = batteryTips) ∧
    (strIncludes (jsToLower userQuery) "battery" = false →
      (strIncludes (jsToLower userQuery) "camera" = true ∨
       strIncludes (jsToLower userQuery) "recording" = true) →
      tipsBlock userQuery = cameraTips) ∧
    (strIncludes (jsToLower userQuery) "battery" = false →
      strIncludes (jsToLower userQuery) "camera" = false →
      strIncludes (jsToLower userQuery) "recording" = false →
      (strIncludes (jsToLower userQuery) "setup" = true ∨
       strIncludes (jsToLower userQuery) "install" = true) →
      tipsBlock userQuery = setupTips) ∧
    (generateFallbackResponse userQuery (t :: ts) errMsg).answer =
      jsTrim (fallbackHeader userQuery (t :: ts).length ++
        renderTickets (t :: ts).length 0 (t :: ts) ++ tipsBlock userQuery ++ fallbackNote) := by
  refine ⟨?_, ?_, ?_, ?_, rfl⟩
  · by_cases h1 : strIncludes (jsToLower userQuery) "battery" = true
    · simp [tipsBlock, h1]
    · by_cases h2 : (strIncludes (jsToLower userQuery) "camera" ||
        strIncludes (jsToLower userQuery) "recording") = true
      · simp [tipsBlock, h1, h2]
      · by_cases h3 : (strIncludes (jsToLower userQuery) "setup" ||
          strIncludes (jsToLower userQuery) "install") = true
        · simp [tipsBlock, h1, h2, h3]
        · simp [tipsBlock, h1, h2, h3]
  · intro h1
    simp [tipsBlock, h1]
  · intro h1 h2
    have h2b : (strIncludes (jsToLower userQuery) "camera" ||
        strIncludes (jsToLower userQuery) "recording") = true := by
      rcases h2 with h | h <;> simp [h]
    simp [tipsBlock, h1, h2b]
  · intro h1 h2 h3 h4
    have h4b : (strIncludes (jsToLower userQuery) "setup" ||
        strIncludes (jsToLower userQuery) "install") = true := by
      rcases h4 with h | h <;> simp [h]
    simp [tipsBlock, h1, h2, h3, h4b]

/- Lemmas about the regex span extraction -/

theorem firstIdxOf_spec (a : Char) :
    ∀ (l : List Char) (i : Nat), firstIdxOf a l = some i →
      ∃ pre rest, l = pre ++ a :: rest ∧ pre.length = i ∧ a ∉ pre := by
  intro l
  induction l with
  | nil =>
    intro i h
    cases h
  | cons c cs ih =>
    intro i h
    unfold firstIdxOf at h
    by_cases hc : c = a
    · rw [if_pos hc] at h
      injection h with h'
      refine ⟨[], cs, by simp [hc], h', by simp⟩
    · rw [if_neg hc] at h
      obtain ⟨i', hi', rfl⟩ := Option.map_eq_some'.mp h
      obtain ⟨pre, rest, hl, hlen, hnot⟩ := ih i' hi'
      refine ⟨c :: pre, rest, by simp [hl], by simp [hlen], ?_⟩
      intro hmem
      rcases List.mem_cons.mp hmem with h1 | h1
      · exact hc h1.symm
      · exact hnot h1

theorem lastIdxOf_none (a : Char) :
    ∀ l : List Char, lastIdxOf a l = none → a ∉ l := by
  intro l
  induction l with
  | nil =>
    intro _ h2
    cases h2
  | cons c cs ih =>
    intro h
    unfold lastIdxOf at h
    cases hl : lastIdxOf a cs with
    | some j =>
      rw [hl] at h
      cases h
    | none =>
      rw [hl] at h
      by_cases hc : c = a
      · rw [if_pos hc] at h
        cases h
      · rw [if_neg hc] at h
        intro hmem
        rcases List.mem_cons.mp hmem with h1 | h1
        · exact hc h1.symm
        · exact ih hl h1

theorem lastIdxOf_spec (a : Char) :
    ∀ (l : List Char) (j : Nat), lastIdxOf a l = some j →
      ∃ pre rest, l = pre ++ a :: rest ∧ pre.length = j ∧ a ∉ rest := by
  intro l
  induction l with
  | nil =>
    intro j h
    cases h
  | cons c cs ih =>
    intro j h
    unfold lastIdxOf at h
    cases hl : lastIdxOf a cs with
    | some j' =>
      rw [hl] at h
      injection h with h'
      obtain ⟨pre, rest, hleq, hlen, hnot⟩ := ih j' hl
      exact ⟨c :: pre, rest, by simp [hleq], by simp [hlen, h'], hnot⟩
    | none =>
      rw [hl] at h
      by_cases hc : c = a
      · rw [if_pos hc] at h
        injection h with h'
        exact ⟨[], cs, by simp [hc], h', lastIdxOf_none a cs hl⟩
      · rw [if_neg hc] at h
        cases h

theorem jsonSpan_decomp (response span : String) (h : jsonSpan response = some span) :
    ∃ pre mid mid2 post, response.data = pre ++ span.data ++ post ∧
      Char.ofNat 123 ∉ pre ∧ Char.ofNat 125 ∉ post ∧
      span.data = Char.ofNat 123 :: mid ∧ span.data = mid2 ++ [Char.ofNat 125] := by
  unfold jsonSpan at h
  cases hf : firstIdxOf (Char.ofNat 123) response.data with
  | none =>
    rw [hf] at h
    cases h
  | some i =>
    cases hlast : lastIdxOf (Char.ofNat 125) response.data with
    | none =>
      rw [hf, hlast] at h
      cases h
    | some j =>
      rw [hf, hlast] at h
      dsimp only at h
      by_cases hij : i < j
      · rw [if_pos hij] at h
        injection h with hsp
        have hspan : span.data = (response.data.drop i).take (j + 1 - i) := by
          rw [← hsp]
        obtain ⟨p1, r1, hd1, hl1, hn1⟩ := firstIdxOf_spec _ _ _ hf
        obtain ⟨p2, r2, hd2, hl2, hn2⟩ := lastIdxOf_spec _ _ _ hlast
        have hd2' : response.data = (p2 ++ [Char.ofNat 125]) ++ r2 := by
          rw [hd2]
          simp
        have hdropi : response.data.drop i = Char.ofNat 123 :: r1 := by
          conv_lhs => rw [hd1, ← hl1]
          exact List.drop_left p1 _
        have htakei : response.data.take i = p1 := by
          conv_lhs => rw [hd1, ← hl1]
          exact List.take_left p1 _
        have hdropj : response.data.drop (j + 1) = r2 := by
          conv_lhs => rw [hd2']
          have hlen : (p2 ++ [Char.ofNat 125]).length = j + 1 := by
            simp [hl2]
          rw [← hlen]
          exact List.drop_left _ _
        have hmain : response.data = p1 ++ span.data ++ response.data.drop (j + 1) := by
          conv_lhs => rw [← List.take_append_drop i response.data]
          rw [htakei, List.append_assoc]
          congr 1
          conv_lhs => rw [← List.take_append_drop (j + 1 - i) (response.data.drop i)]
          rw [← hspan, List.drop_drop, show i + (j + 1 - i) = j + 1 from by omega]
        have hstart : span.data = Char.ofNat 123 :: (r1.take (j - i)) := by
          rw [hspan, hdropi, show j + 1 - i = (j - i) + 1 from by omega, List.take_succ_cons]
        have hend : span.data = p2.drop i ++ [Char.ofNat 125] := by
          have h1 : response.data.drop i = (p2 ++ [Char.ofNat 125]).drop i ++ r2 := by
            conv_lhs => rw [hd2']
            refine List.drop_append_of_le_length ?_
            have hlen2 : (p2 ++ [Char.ofNat 125]).length = j + 1 := by simp [hl2]
            omega
          have h2 : ((p2 ++ [Char.ofNat 125]).drop i).length = j + 1 - i := by
            simp [hl2]
          rw [hspan, h1, List.take_left' h2]
          exact List.drop_append_of_le_length (by omega)
        exact ⟨p1, r1.take (j - i), p2.drop i, r2, by rw [hdropj] at hmain; exact hmain,
          hn1, hn2, hstart, hend⟩
      · rw [if_neg hij] at h
        cases h

/- Lemmas about the decision lookup and the router -/

theorem jLook_keyword_needsRAG (userQuery errMsg : String) :
    jLook (keywordFallbackAnalysis userQuery errMsg) "needsRAG" =
      some (.bool (hasIssueKeywords (jsToLower userQuery))) := rfl

theorem jLook_keyword_needsChart (userQuery errMsg : String) :
    jLook (keywordFallbackAnalysis userQuery errMsg) "needsChart" =
      some (.bool (hasAnalyticsKeywords (jsToLower userQuery))) := rfl

theorem handleQuery_ticketIds (env : Env) (userQuery : String) (tenant : Option String)
    (threadId : String) :
    (handleQuery env userQuery tenant threadId).ticketIds =
      (if jTruthy (jLook (analyzeQueryRequirements env userQuery) "needsRAG") then
        some (ragHandleQuery env userQuery tenant) else none).map
        (fun r => r.references.ticketIds) := rfl

theorem handleQuery_chart (env : Env) (userQuery : String) (tenant : Option String)
    (threadId : String) :
    (handleQuery env userQuery tenant threadId).chart =
      (if jTruthy (jLook (analyzeQueryRequirements env userQuery) "needsChart") then
        some (generateAnalytics env tenant) else none) := rfl

theorem handleQuery_answer (env : Env) (userQuery : String) (tenant : Option String)
    (threadId : String) :
    (handleQuery env userQuery tenant threadId).answer =
      combineResults
        (if jTruthy (jLook (analyzeQueryRequirements env userQuery) "needsRAG") then
          some (ragHandleQuery env userQuery tenant) else none)
        (if jTruthy (jLook (analyzeQueryRequirements env userQuery) "needsChart") then
          some (generateAnalytics env tenant) else none) := rfl

theorem gqlNotOk_failOrEmpty : ∀ {o : GqlOutcome}, gqlNotOk o → gqlFailOrEmpty o
  | .throws _ _, _ => trivial
  | .gqlErrors _, _ => trivial
  | .ok _, h => h.elim

/-- Claim C1 (amended): the route operation never raises and always
    returns a composed answer with non-empty text; on a total failure path
    the references carry no ticket ids, and the chart is null exactly when
    the keyword decision did not request analytics (when analytics was
    requested and failed, the chart is the non-null error-chart object). -/
theorem claim1_theorem (env : Env) (userQuery : String) (tenant : Option String)
    (threadId : String) :
    (handleQuery env userQuery tenant threadId).answer ≠ "" ∧
    (totalFailure env →
      ((handleQuery env userQuery tenant threadId).ticketIds = none ∨
       (handleQuery env userQuery tenant threadId).ticketIds = some []) ∧
      ((handleQuery env userQuery tenant threadId).chart = none ↔
        hasAnalyticsKeywords (jsToLower userQuery) = false)) := by
  refine ⟨handleQuery_answer_ne env userQuery tenant threadId, ?_⟩
  intro htf
  obtain ⟨⟨mC, hC⟩, hSem, hStr, hRaw, _, _⟩ := htf
  have hana : analyzeQueryRequirements env userQuery =
      keywordFallbackAnalysis userQuery mC := by
    unfold analyzeQueryRequirements
    rw [hC]
  constructor
  · rw [handleQuery_ticketIds, hana, jLook_keyword_needsRAG]
    by_cases hb : hasIssueKeywords (jsToLower userQuery) = true
    · right
      have hsearch : (searchTickets env userQuery tenant 10).tickets = [] := by
        refine searchTickets_fail env userQuery tenant 10 (hSem _ _ _)
          (gqlNotOk_failOrEmpty (hStr _ _)) ?_
        obtain ⟨m, c, hr⟩ := hRaw (fetchObjectsWhere userQuery tenant) 10
        rw [hr]
        trivial
      have hrag : (ragHandleQuery env userQuery tenant).references.ticketIds = [] := by
        unfold ragHandleQuery
        rw [hsearch]
        rfl
      simp [jTruthy, hb, hrag]
    · left
      simp [jTruthy, Bool.eq_false_iff.mpr hb]
  · rw [handleQuery_chart, hana, jLook_keyword_needsChart]
    by_cases hb : hasAnalyticsKeywords (jsToLower userQuery) = true
    · simp [jTruthy, hb]
    · simp [jTruthy, Bool.eq_false_iff.mpr hb]

/-- Claim C1 counterexample: with every capability failing and the query
    asking for statistics, the chart of the composed answer is the non-null
    error chart, not null. -/
theorem claim1_counterexample :
    totalFailure envFailAll ∧
    (handleQuery envFailAll "show me statistics" none "default").chart =
      some (.errorChart "Failed to generate analytics") ∧
    (handleQuery envFailAll "show me statistics" none "default").chart ≠ none ∧
    (handleQuery envFailAll "show me statistics" none "default").answer ≠ "" := by
  refine ⟨⟨⟨_, rfl⟩, fun _ _ _ => trivial, fun _ _ => trivial,
    fun _ _ => ⟨_, _, rfl⟩, ⟨_, rfl⟩, fun _ => ⟨_, rfl⟩⟩, rfl, ?_, by decide⟩
  intro h
  have hc : (handleQuery envFailAll "show me statistics" none "default").chart =
      some (.errorChart "Failed to generate analytics") := rfl
  rw [hc] at h
  exact Option.noConfusion h

/-- Claim C1 witness: the amended statement at a concrete failing
    environment and query. -/
theorem claim1_witness :
    (handleQuery envFailAll "show me statistics" none "default").answer ≠ "" ∧
    ((handleQuery envFailAll "show me statistics" none "default").ticketIds = none ∨
     (handleQuery envFailAll "show me statistics" none "default").ticketIds = some []) ∧
    ((handleQuery envFailAll "show me statistics" none "default").chart = none ↔
      hasAnalyticsKeywords (jsToLower "show me statistics") = false) := by
  have h := claim1_theorem envFailAll "show me statistics" none "default"
  have htf : totalFailure envFailAll :=
    ⟨⟨_, rfl⟩, fun _ _ _ => trivial, fun _ _ => trivial,
     fun _ _ => ⟨_, _, rfl⟩, ⟨_, rfl⟩, fun _ => ⟨_, rfl⟩⟩
  exact ⟨h.1, (h.2 htf).1, (h.2 htf).2⟩

/-- Claim C2 (confirmed): a transport failure in Tier 1 short-circuits the
    cascade to the empty result regardless of the later tiers; after an
    embedding failure in Tier 1, a transport failure in Tier 2 also
    short-circuits to the empty result; and when all three tiers fail or
    return nothing, the search returns the empty result. -/
theorem claim2_theorem (env : Env) (query : String) (tenant : Option String) (limit : Nat) :
    (∀ m c, env.semantic query tenant limit = .throws m c → isConnectionError m c = true →
      searchTickets env query tenant limit = ⟨[], .empty⟩) ∧
    (tier1EmbedFail env query tenant limit →
      ∀ m c, env.structured (fallbackWhere query tenant) limit = .throws m c →
        isConnectionError m c = true →
        searchTickets env query tenant limit = ⟨[], .empty⟩) ∧
    (gqlNotOk (env.semantic query tenant limit) →
      gqlFailOrEmpty (env.structured (fallbackWhere query tenant) limit) →
      fetchFailOrEmpty (env.rawFetch (fetchObjectsWhere query tenant) limit) →
      (searchTickets env query tenant limit).tickets = []) := by
  refine ⟨?_, ?_, searchTickets_fail env query tenant limit⟩
  · intro m c hm hconn
    simp [searchTickets, hm, hconn]
  · intro h1 m c hm hconn
    have hfb : fallbackSearch env query tenant limit = ⟨[], .empty⟩ := by
      simp [fallbackSearch, hm, hconn]
    rcases h1 with ⟨m1, hm1, ht1⟩ | ⟨m1, c1, hm1, hc1, ht1⟩
    · simp [searchTickets, hm1, ht1, hfb]
    · simp [searchTickets, hm1, hc1, ht1, hfb]

/-- Claim C2 witness: the three short-circuit facts at concrete
    environments. -/
theorem claim2_witness :
    searchTickets envConnDown "battery issue" none 5 = ⟨[], .empty⟩ ∧
    searchTickets envTierTwoConnDown "battery issue" none 5 = ⟨[], .empty⟩ ∧
    (searchTickets envFailAll "battery issue" none 5).tickets = [] :=
  ⟨(claim2_theorem envConnDown "battery issue" none 5).1 _ false rfl (by decide),
   (claim2_theorem envTierTwoConnDown "battery issue" none 5).2.1
     (Or.inl ⟨_, rfl, by decide⟩) _ false rfl (by decide),
   (claim2_theorem envFailAll "battery issue" none 5).2.2 trivial trivial trivial⟩

/-- Claim C5 (confirmed): after an embedding failure in Tier 1, a
    structured Tier 2 response with at least one ticket is returned exactly,
    marked keyword-structured; a structured response with zero tickets makes
    the cascade proceed to the Tier 3 raw object fetch. -/
theorem claim5_theorem (env : Env) (query : String) (tenant : Option String) (limit : Nat)
    (ts : List Ticket) (h1 : tier1EmbedFail env query tenant limit)
    (h2 : env.structured (fallbackWhere query tenant) limit = .ok ts) :
    (ts ≠ [] → searchTickets env query tenant limit = ⟨ts, .keywordStructured⟩) ∧
    (ts = [] → searchTickets env query tenant limit =
      fetchObjectsFallback env query tenant limit) := by
  cases ts with
  | nil =>
    refine ⟨fun h => absurd rfl h, fun _ => ?_⟩
    rcases h1 with ⟨m1, hm1, ht1⟩ | ⟨m1, c1, hm1, hc1, ht1⟩
    · simp [searchTickets, fallbackSearch, hm1, ht1, h2]
    · simp [searchTickets, fallbackSearch, hm1, hc1, ht1, h2]
  | cons t rest =>
    refine ⟨fun _ => ?_, fun h => absurd h (List.cons_ne_nil t rest)⟩
    rcases h1 with ⟨m1, hm1, ht1⟩ | ⟨m1, c1, hm1, hc1, ht1⟩
    · simp [searchTickets, fallbackSearch, hm1, ht1, h2]
    · simp [searchTickets, fallbackSearch, hm1, hc1, ht1, h2]

/-- Claim C5 witness: the Tier 2 exact return and the Tier 3 continuation
    at concrete environments. -/
theorem claim5_witness :
    searchTickets envTierTwo "battery issue" none 5 = ⟨[sampleTicket], .keywordStructured⟩ ∧
    searchTickets envTierThree "battery issue" none 5 =
      fetchObjectsFallback envTierThree "battery issue" none 5 ∧
    fetchObjectsFallback envTierThree "battery issue" none 5 =
      ⟨[sampleTicket2], .keywordRaw⟩ :=
  ⟨(claim5_theorem envTierTwo "battery issue" none 5 [sampleTicket]
      (Or.inl ⟨_, rfl, by decide⟩) rfl).1 (by simp),
   (claim5_theorem envTierThree "battery issue" none 5 []
      (Or.inl ⟨_, rfl, by decide⟩) rfl).2 rfl,
   rfl⟩

/-- Claim C3 (amended): the router extracts the greedy span from the first
    opening brace to the last closing brace of the response, decodes it as
    JSON and uses the decoded object without validating its fields, and on a
    missing or undecodable span returns the fixed default decision with
    needsRAG true and needsChart false; the keyword classifier runs only
    when the classifier call itself fails. -/
theorem claim3_theorem (response : String) :
    (∀ span, jsonSpan response = some span →
      ∃ pre mid mid2 post, response.data = pre ++ span.data ++ post ∧
        Char.ofNat 123 ∉ pre ∧ Char.ofNat 125 ∉ post ∧
        span.data = Char.ofNat 123 :: mid ∧ span.data = mid2 ++ [Char.ofNat 125]) ∧
    (jsonSpan response = none → parseJSONResponse response = defaultDecision) ∧
    (∀ span, jsonSpan response = some span →
      parseJSONResponse response = (jsonParse span).getD defaultDecision) := by
  refine ⟨fun span h => jsonSpan_decomp response span h, ?_, ?_⟩
  · intro hnone
    unfold parseJSONResponse
    rw [hnone]
  · intro span hsp
    unfold parseJSONResponse
    rw [hsp]
    cases hjp : jsonParse span with
    | none => simp [hjp]
    | some v => simp [hjp]

/-- Claim C3 counterexample: the extraction is greedy rather than
    first-balanced (a valid leading object followed by stray braces decodes
    under the first-balanced reading but falls back to the default under the
    code), decoded objects are used without boolean validation, and
    malformed output yields the fixed default decision rather than the
    keyword classifier result. -/
theorem claim3_counterexample :
    specFirstBalancedSpan sampleResponseGreedy = some sampleBalanced ∧
    jsonParse sampleBalanced =
      some (.obj [("needsRAG", .bool false), ("needsChart", .bool true)]) ∧
    jsonSpan sampleResponseGreedy = some sampleResponseGreedy ∧
    parseJSONResponse sampleResponseGreedy = defaultDecision ∧
    jTruthy (jLook (parseJSONResponse sampleResponseGreedy) "needsRAG") = true ∧
    jTruthy (jLook (.obj [("needsRAG", .bool false), ("needsChart", .bool true)]) "needsRAG")
      = false ∧
    parseJSONResponse sampleUnvalidated = .obj [("needsRAG", .str "yes")] ∧
    parseJSONResponse "no json here" = defaultDecision ∧
    jTruthy (jLook (keywordFallbackAnalysis "show me statistics" "boom") "needsChart") = true ∧
    jTruthy (jLook (parseJSONResponse "no json here") "needsChart") = false :=
  ⟨rfl, rfl, rfl, rfl, rfl, rfl, rfl, rfl, by decide, rfl⟩

/-- Claim C3 witness: the amended statement at the concrete greedy
    response. -/
theorem claim3_witness :
    parseJSONResponse sampleResponseGreedy =
      (jsonParse sampleResponseGreedy).getD defaultDecision ∧
    (∃ pre mid mid2 post, sampleResponseGreedy.data =
        pre ++ sampleResponseGreedy.data ++ post ∧
      Char.ofNat 123 ∉ pre ∧ Char.ofNat 125 ∉ post ∧
      sampleResponseGreedy.data = Char.ofNat 123 :: mid ∧
      sampleResponseGreedy.data = mid2 ++ [Char.ofNat 125]) :=
  ⟨(claim3_theorem sampleResponseGreedy).2.2 sampleResponseGreedy rfl,
   (claim3_theorem sampleResponseGreedy).1 sampleResponseGreedy rfl⟩

/-- Claim C4 (amended): when neither keyword set matches, the deterministic
    keyword classifier returns needsRAG false and needsChart false, and the
    router runs neither branch and answers with the fixed could-not-find
    message, no ticket references and no chart. -/
theorem claim4_theorem (env : Env) (userQuery : String) (tenant : Option String)
    (threadId : String) (msg : String)
    (hc : env.llmClassify = .error msg)
    (h1 : hasIssueKeywords (jsToLower userQuery) = false)
    (h2 : hasAnalyticsKeywords (jsToLower userQuery) = false) :
    jLook (analyzeQueryRequirements env userQuery) "needsRAG" = some (.bool false) ∧
    jLook (analyzeQueryRequirements env userQuery) "needsChart" = some (.bool false) ∧
    (handleQuery env userQuery tenant threadId).ticketIds = none ∧
    (handleQuery env userQuery tenant threadId).chart = none ∧
    (handleQuery env userQuery tenant threadId).answer = noResultsMessage := by
  have hana : analyzeQueryRequirements env userQuery =
      keywordFallbackAnalysis userQuery msg := by
    unfold analyzeQueryRequirements
    rw [hc]
  have hA : jLook (analyzeQueryRequirements env userQuery) "needsRAG" = some (.bool false) := by
    rw [hana, jLook_keyword_needsRAG, h1]
  have hB : jLook (analyzeQueryRequirements env userQuery) "needsChart" =
      some (.bool false) := by
    rw [hana, jLook_keyword_needsChart, h2]
  refine ⟨hA, hB, ?_, ?_, ?_⟩
  · rw [handleQuery_ticketIds, hA]
    simp [jTruthy]
  · rw [handleQuery_chart, hB]
    simp [jTruthy]
  · rw [handleQuery_answer, hA, hB]
    show combineResults none none = noResultsMessage
    decide

/-- Claim C4 counterexample: the query hello matches neither keyword set
    and the classifier returns needsRAG false, not true. -/
theorem claim4_counterexample :
    hasIssueKeywords "hello" = false ∧
    hasAnalyticsKeywords "hello" = false ∧
    jLook (keywordFallbackAnalysis "hello" "LLM error") "needsRAG" = some (.bool false) ∧
    jTruthy (jLook (keywordFallbackAnalysis "hello" "LLM error") "needsRAG") = false :=
  ⟨by decide, by decide, rfl, rfl⟩

/-- Claim C4 witness: the amended statement at the query hello in a
    failing environment. -/
theorem claim4_witness :
    jLook (analyzeQueryRequirements envFailAll "hello") "needsRAG" = some (.bool false) ∧
    (handleQuery envFailAll "hello" none "default").ticketIds = none ∧
    (handleQuery envFailAll "hello" none "default").chart = none ∧
    (handleQuery envFailAll "hello" none "default").answer = noResultsMessage := by
  have h := claim4_theorem envFailAll "hello" none "default" _ rfl (by decide) (by decide)
  exact ⟨h.1, h.2.2.1, h.2.2.2.1, h.2.2.2.2⟩

/-- Claim C10 witness: a query mentioning all three categories receives
    only the battery tip block. -/
theorem claim10_witness :
    tipsBlock sampleQueryTips = batteryTips ∧
    tipsBlock sampleQueryCamera = cameraTips ∧
    (generateFallbackResponse sampleQueryTips [sampleTicket] "boom").answer =
      jsTrim (fallbackHeader sampleQueryTips 1 ++
        renderTickets 1 0 [sampleTicket] ++ tipsBlock sampleQueryTips ++ fallbackNote) :=
  ⟨(claim10_theorem sampleQueryTips "boom" sampleTicket []).2.1 (by decide),
   (claim10_theorem sampleQueryCamera "boom" sampleTicket []).2.2.1 (by decide)
     (Or.inl (by decide)),
   (claim10_theorem sampleQueryTips "boom" sampleTicket []).2.2.2.2⟩

end WeaviateAgent
